import Mathlib

/-!
Verification of the dj-uploader OAuth2 core against its specification.

Shallow embedding of `src/config.rs` and `src/platforms/{mixcloud,soundcloud}.rs`:
times are modelled as `Int` seconds since an arbitrary epoch (the code uses
`chrono::DateTime<Utc>`; all comparisons and offsets in the claims are at
whole-second granularity), stateful operations take and return the state they
touch explicitly, and effectful outcomes of the network and filesystem are
supplied as explicit parameters.
-/

namespace DjUploader

/-- Embedding of `TokenInfo` (src/config.rs, lines 75-84). `created_at` is the
capture instant. `expires_in` is the optional lifetime in seconds (`i64`). -/
structure TokenInfo where
  access_token : String
  refresh_token : Option String
  created_at : Int
  expires_in : Option Int
deriving Repr, DecidableEq

/-- Embedding of `TokenInfo::new` (src/config.rs, lines 87-98): `created_at`
is set to the current time, passed here explicitly as `now`. -/
def TokenInfo.new (access_token : String) (refresh_token : Option String)
    (expires_in : Option Int) (now : Int) : TokenInfo :=
  { access_token := access_token
    refresh_token := refresh_token
    created_at := now
    expires_in := expires_in }

/-- Embedding of `TokenInfo::is_expired` (src/config.rs, lines 101-112):
`now >= created_at + expires_in seconds - 5 minutes`; false when
`expires_in` is absent. `Duration::minutes(5)` is 300 seconds. -/
def TokenInfo.is_expired (t : TokenInfo) (now : Int) : Bool :=
  match t.expires_in with
  | some expires_in =>
      let expiry_time := t.created_at + expires_in
      let buffer : Int := 300
      decide (now ≥ expiry_time - buffer)
  | none => false

/-- Embedding of `TokenInfo::time_until_expiry` (src/config.rs, lines 114-128):
remaining time until `created_at + expires_in`, clamped at zero; `none`
when `expires_in` is absent. -/
def TokenInfo.time_until_expiry (t : TokenInfo) (now : Int) : Option Int :=
  match t.expires_in with
  | some expires_in =>
      let expiry_time := t.created_at + expires_in
      let remaining := expiry_time - now
      if remaining > 0 then some remaining else some 0
  | none => none

/-- Embedding of `TokenStorage` (src/config.rs, lines 131-137): at most one
record per provider. -/
structure TokenStorage where
  mixcloud : Option TokenInfo
  soundcloud : Option TokenInfo
deriving Repr, DecidableEq

/-- Embedding of `TokenStorage::set_mixcloud_tokens` (src/config.rs,
lines 186-188). -/
def TokenStorage.set_mixcloud_tokens (s : TokenStorage) (token_info : TokenInfo) :
    TokenStorage :=
  { s with mixcloud := some token_info }

/-- Embedding of the successful-response body of the provider token endpoints
(`TokenResponse` in src/platforms/{mixcloud,soundcloud}.rs): `access_token`
required, `refresh_token` and `expires_in` defaulting to `None`. -/
structure TokenResponse where
  access_token : String
  refresh_token : Option String
  expires_in : Option Int
deriving Repr, DecidableEq

/-- Outcome of one POST to a token endpoint, supplied by the environment:
a parsed 2xx body, a non-success HTTP status with its raw body, or a 2xx
body that fails JSON parsing. -/
inductive ExchangeOutcome where
  | success (resp : TokenResponse)
  | httpError (status : Nat) (body : String)
  | parseError
deriving Repr, DecidableEq

/-- Errors of `refresh_token_if_needed` (both providers). -/
inductive RefreshError where
  | noToken
  | noRefreshToken
  | refreshFailed (status : Nat) (body : String)
  | refreshParseFailed
deriving Repr, DecidableEq

/-- Embedding of `MixcloudClient::refresh_token_if_needed`
(src/platforms/mixcloud.rs, lines 230-281). The stored storage is passed in
and the (possibly updated) storage is returned; the boolean records whether
the refresh POST was sent; `net` is what that POST would yield. -/
def mixcloudRefreshTokenIfNeeded (storage : TokenStorage) (now : Int)
    (net : ExchangeOutcome) :
    Except RefreshError Unit × TokenStorage × Bool :=
  match storage.mixcloud with
  | none => (.error .noToken, storage, false)
  | some token_info =>
    if token_info.is_expired now then
      match token_info.refresh_token with
      | none => (.error .noRefreshToken, storage, false)
      | some refresh_token =>
        match net with
        | .httpError status body => (.error (.refreshFailed status body), storage, true)
        | .parseError => (.error .refreshParseFailed, storage, true)
        | .success resp =>
            let new_token_info := TokenInfo.new resp.access_token
              (resp.refresh_token.or (some refresh_token)) resp.expires_in now
            (.ok (), storage.set_mixcloud_tokens new_token_info, true)
    else (.ok (), storage, false)

/-- Embedding of `SoundcloudClient::refresh_token_if_needed`
(src/platforms/soundcloud.rs, lines 266-321); identical shape, acting on the
`soundcloud` entry. -/
def soundcloudRefreshTokenIfNeeded (storage : TokenStorage) (now : Int)
    (net : ExchangeOutcome) :
    Except RefreshError Unit × TokenStorage × Bool :=
  match storage.soundcloud with
  | none => (.error .noToken, storage, false)
  | some token_info =>
    if token_info.is_expired now then
      match token_info.refresh_token with
      | none => (.error .noRefreshToken, storage, false)
      | some refresh_token =>
        match net with
        | .httpError status body => (.error (.refreshFailed status body), storage, true)
        | .parseError => (.error .refreshParseFailed, storage, true)
        | .success resp =>
            let new_token_info := TokenInfo.new resp.access_token
              (resp.refresh_token.or (some refresh_token)) resp.expires_in now
            (.ok (), { storage with soundcloud := some new_token_info }, true)
    else (.ok (), storage, false)

/-! SHA-256 (the `sha2` crate's `Sha256`) and URL-safe unpadded base64 (the
`base64` crate's `URL_SAFE_NO_PAD` engine), modelled over byte lists with
`Nat` words reduced `% 2 ^ 32`. -/

/-- 32-bit right rotation. -/
def rotr (x n : Nat) : Nat := (x / 2 ^ n + x % 2 ^ n * 2 ^ (32 - n)) % 2 ^ 32

/-- 32-bit logical right shift. -/
def shr (x n : Nat) : Nat := x / 2 ^ n

/-- SHA-256 `Ch` function (bitwise, inputs below `2 ^ 32`). -/
def ch (x y z : Nat) : Nat := (x &&& y) ^^^ ((x ^^^ (2 ^ 32 - 1)) &&& z)

/-- SHA-256 `Maj` function. -/
def maj (x y z : Nat) : Nat := (x &&& y) ^^^ (x &&& z) ^^^ (y &&& z)

/-- SHA-256 big sigma-0. -/
def bigSigma0 (x : Nat) : Nat := rotr x 2 ^^^ rotr x 13 ^^^ rotr x 22

/-- SHA-256 big sigma-1. -/
def bigSigma1 (x : Nat) : Nat := rotr x 6 ^^^ rotr x 11 ^^^ rotr x 25

/-- SHA-256 small sigma-0. -/
def smallSigma0 (x : Nat) : Nat := rotr x 7 ^^^ rotr x 18 ^^^ shr x 3

/-- SHA-256 small sigma-1. -/
def smallSigma1 (x : Nat) : Nat := rotr x 17 ^^^ rotr x 19 ^^^ shr x 10

/-- The 64 SHA-256 round constants. -/
def shaK : List Nat :=
  [1116352408, 1899447441, 3049323471, 3921009573, 961987163,
   1508970993, 2453635748, 2870763221, 3624381080, 310598401,
   607225278, 1426881987, 1925078388, 2162078206, 2614888103,
   3248222580, 3835390401, 4022224774, 264347078, 604807628,
   770255983, 1249150122, 1555081692, 1996064986, 2554220882,
   2821834349, 2952996808, 3210313671, 3336571891, 3584528711,
   113926993, 338241895, 666307205, 773529912, 1294757372,
   1396182291, 1695183700, 1986661051, 2177026350, 2456956037,
   2730485921, 2820302411, 3259730800, 3345764771, 3516065817,
   3600352804, 4094571909, 275423344, 430227734, 506948616,
   659060556, 883997877, 958139571, 1322822218, 1537002063,
   1747873779, 1955562222, 2024104815, 2227730452, 2361852424,
   2428436474, 2756734187, 3204031479, 3329325298]

/-- SHA-256 working state: eight 32-bit words. -/
structure ShaState where
  a : Nat
  b : Nat
  c : Nat
  d : Nat
  e : Nat
  f : Nat
  g : Nat
  h : Nat
deriving Repr, DecidableEq

/-- SHA-256 initial hash value. -/
def shaH0 : ShaState :=
  ⟨1779033703, 3144134277, 1013904242, 2773480762,
   1359893119, 2600822924, 528734635, 1541459225⟩

/-- Big-endian 32-bit word `i` of a 64-byte block. -/
def blockWord (block : List Nat) (i : Nat) : Nat :=
  block.getD (4 * i) 0 * 2 ^ 24 + block.getD (4 * i + 1) 0 * 2 ^ 16 +
    block.getD (4 * i + 2) 0 * 2 ^ 8 + block.getD (4 * i + 3) 0

/-- The 64-entry SHA-256 message schedule of one block. -/
def schedule (block : List Nat) : Array Nat :=
  let w0 := (List.range 16).toArray.map (blockWord block)
  (List.range 48).foldl
    (fun w _ =>
      w.push ((smallSigma1 (w.getD (w.size - 2) 0) + w.getD (w.size - 7) 0 +
        smallSigma0 (w.getD (w.size - 15) 0) + w.getD (w.size - 16) 0) % 2 ^ 32))
    w0

/-- One SHA-256 compression round. -/
def shaRound (w : Array Nat) (s : ShaState) (t : Nat) : ShaState :=
  let t1 := (s.h + bigSigma1 s.e + ch s.e s.f s.g + shaK.getD t 0 + w.getD t 0) % 2 ^ 32
  let t2 := (bigSigma0 s.a + maj s.a s.b s.c) % 2 ^ 32
  ⟨(t1 + t2) % 2 ^ 32, s.a, s.b, s.c, (s.d + t1) % 2 ^ 32, s.e, s.f, s.g⟩

/-- SHA-256 compression of one 64-byte block into the chaining state. -/
def compressBlock (hs : ShaState) (block : List Nat) : ShaState :=
  let w := schedule block
  let s := (List.range 64).foldl (shaRound w) hs
  ⟨(hs.a + s.a) % 2 ^ 32, (hs.b + s.b) % 2 ^ 32, (hs.c + s.c) % 2 ^ 32,
   (hs.d + s.d) % 2 ^ 32, (hs.e + s.e) % 2 ^ 32, (hs.f + s.f) % 2 ^ 32,
   (hs.g + s.g) % 2 ^ 32, (hs.h + s.h) % 2 ^ 32⟩

/-- A `Nat` as 8 big-endian bytes. -/
def be8 (n : Nat) : List Nat :=
  [n / 2 ^ 56 % 256, n / 2 ^ 48 % 256, n / 2 ^ 40 % 256, n / 2 ^ 32 % 256,
   n / 2 ^ 24 % 256, n / 2 ^ 16 % 256, n / 2 ^ 8 % 256, n % 256]

/-- A 32-bit word as 4 big-endian bytes. -/
def be4 (n : Nat) : List Nat :=
  [n / 2 ^ 24 % 256, n / 2 ^ 16 % 256, n / 2 ^ 8 % 256, n % 256]

/-- SHA-256 padding: `0x80`, zeros to 56 mod 64, 64-bit big-endian bit length. -/
def shaPad (msg : List Nat) : List Nat :=
  let L := msg.length
  let k := (120 - (L + 1) % 64) % 64
  msg ++ [0x80] ++ List.replicate k 0 ++ be8 (8 * L)

/-- Fold the compression function over consecutive 64-byte blocks; the first
argument bounds the number of blocks (structural recursion so that the
kernel can evaluate digests). -/
def processBlocksAux : Nat → ShaState → List Nat → ShaState
  | 0, hs, _ => hs
  | fuel + 1, hs, l =>
      if l.length < 64 then hs
      else processBlocksAux fuel (compressBlock hs (l.take 64)) (l.drop 64)

/-- Fold the compression function over consecutive 64-byte blocks. -/
def processBlocks (hs : ShaState) (l : List Nat) : ShaState :=
  processBlocksAux (l.length / 64 + 1) hs l

/-- SHA-256 digest of a byte list, as 32 bytes. -/
def sha256 (msg : List Nat) : List Nat :=
  let hs := processBlocks shaH0 (shaPad msg)
  be4 hs.a ++ be4 hs.b ++ be4 hs.c ++ be4 hs.d ++
    be4 hs.e ++ be4 hs.f ++ be4 hs.g ++ be4 hs.h

/-- The URL-safe base64 alphabet. -/
def b64Alphabet : List Char :=
  "ABCDEFGHIJKLMNOPQRSTUVWXYZabcdefghijklmnopqrstuvwxyz0123456789-_".data

/-- Character for a 6-bit group. -/
def b64c (n : Nat) : Char := b64Alphabet.getD n 'A'

/-- URL-safe base64 without padding over a byte list (the `URL_SAFE_NO_PAD`
engine's encoding). -/
def base64UrlNoPad : List Nat → List Char
  | b1 :: b2 :: b3 :: rest =>
      b64c (b1 / 4) :: b64c (b1 % 4 * 16 + b2 / 16) ::
        b64c (b2 % 16 * 4 + b3 / 64) :: b64c (b3 % 64) :: base64UrlNoPad rest
  | [b1, b2] => [b64c (b1 / 4), b64c (b1 % 4 * 16 + b2 / 16), b64c (b2 % 16 * 4)]
  | [b1] => [b64c (b1 / 4), b64c (b1 % 4 * 16)]
  | [] => []

/-- UTF-8 encoding of one character (`str::as_bytes` semantics). -/
def utf8EncodeChar (c : Char) : List Nat :=
  let n := c.toNat
  if n < 0x80 then [n]
  else if n < 0x800 then [0xC0 + n / 64, 0x80 + n % 64]
  else if n < 0x10000 then [0xE0 + n / 4096, 0x80 + n / 64 % 64, 0x80 + n % 64]
  else [0xF0 + n / 262144, 0x80 + n / 4096 % 64, 0x80 + n / 64 % 64, 0x80 + n % 64]

/-- The UTF-8 bytes of a string (`str::as_bytes`). -/
def strBytes (s : String) : List Nat := (s.data.map utf8EncodeChar).flatten

/-- Embedding of `generate_code_challenge` (src/platforms/soundcloud.rs,
lines 49-54): `URL_SAFE_NO_PAD.encode(Sha256(verifier.as_bytes()))`. -/
def generate_code_challenge (verifier : String) : String :=
  ⟨base64UrlNoPad (sha256 (strBytes verifier))⟩

/-! The authorize flows. Randomness, the loopback callback and the network are
supplied by an explicit environment; the stored `TokenStorage` is passed in
and the (possibly updated) storage is returned, with a `Bool` recording
whether the token-exchange POST was sent. -/

/-- The 62 characters of `rand::distributions::Alphanumeric`. -/
def alphanumericChars : List Char :=
  "ABCDEFGHIJKLMNOPQRSTUVWXYZabcdefghijklmnopqrstuvwxyz0123456789".data

/-- One sample of the `Alphanumeric` distribution from a random source. -/
def sampleAlphanumeric (r : Nat → Nat) (i : Nat) : Char :=
  alphanumericChars.getD (r i % 62) 'A'

/-- Embedding of the CSRF-state generation (src/platforms/soundcloud.rs,
lines 89-93): 32 samples of the `Alphanumeric` distribution collected into a
string; `r` is the random source of this attempt. -/
def genState (r : Nat → Nat) : String :=
  ⟨(List.range 32).map (sampleAlphanumeric r)⟩

/-- The query pairs appended to the SoundCloud authorize URL
(src/platforms/soundcloud.rs, lines 96-105), in source order. -/
def soundcloudAuthUrlParams (client_id code_challenge state : String) :
    List (String × String) :=
  [("client_id", client_id),
   ("redirect_uri", "http://localhost:8889/callback"),
   ("response_type", "code"),
   ("code_challenge", code_challenge),
   ("code_challenge_method", "S256"),
   ("state", state),
   ("scope", "non-expiring")]

/-- The query pairs appended to the Mixcloud authorize URL
(src/platforms/mixcloud.rs, lines 69-73), in source order: only `client_id`
and `redirect_uri`. -/
def mixcloudAuthUrlParams (client_id : String) : List (String × String) :=
  [("client_id", client_id),
   ("redirect_uri", "http://localhost:8888/callback")]

/-- `query_pairs().find(|(key, _)| key == k).map(|(_, value)| value)`: the
first query pair with the given key. -/
def findParam (pairs : List (String × String)) (key : String) : Option String :=
  (pairs.find? (fun p => p.1 == key)).map (fun p => p.2)

/-- Errors of the authorize flows (src §4.1/§7 taxonomy as realised by the
`bail!`/`context` sites of both `authorize` functions). -/
inductive AuthError where
  | listenerUnavailable
  | requestReadFailed
  | missingAuthorizationCode
  | missingState
  | csrfMismatch
  | tokenExchangeFailed (status : Nat) (body : String)
  | tokenParseFailed
deriving Repr, DecidableEq

/-- Environment of one SoundCloud authorization attempt: the random source
for the CSRF state, whether the port-8889 bind succeeds, the query pairs of
the received callback (`none` when no request line could be read), the
outcome the token endpoint would give, and the current time. -/
structure SoundcloudAuthEnv where
  stateRand : Nat → Nat
  bindOk : Bool
  callback : Option (List (String × String))
  exchange : ExchangeOutcome
  now : Int

/-- Embedding of `SoundcloudClient::authorize` (src/platforms/soundcloud.rs,
lines 79-240): generate the state, bind the listener, read the callback,
extract `code` then `state` (`extract_code_from_request`, lines 242-264),
validate the state byte-for-byte (lines 133-136), exchange the code, and
save a record with `created_at = now` into the `soundcloud` entry of the
loaded storage (lines 221-226). -/
def soundcloudAuthorize (env : SoundcloudAuthEnv) (stored : TokenStorage) :
    Except AuthError Unit × TokenStorage × Bool :=
  if !env.bindOk then (.error .listenerUnavailable, stored, false)
  else match env.callback with
  | none => (.error .requestReadFailed, stored, false)
  | some pairs =>
    match findParam pairs "code" with
    | none => (.error .missingAuthorizationCode, stored, false)
    | some _code =>
      match findParam pairs "state" with
      | none => (.error .missingState, stored, false)
      | some returned_state =>
        if returned_state ≠ genState env.stateRand then
          (.error .csrfMismatch, stored, false)
        else match env.exchange with
        | .httpError status body => (.error (.tokenExchangeFailed status body), stored, true)
        | .parseError => (.error .tokenParseFailed, stored, true)
        | .success resp =>
            let token_info := TokenInfo.new resp.access_token resp.refresh_token
              resp.expires_in env.now
            (.ok (), { stored with soundcloud := some token_info }, true)

/-- Environment of one Mixcloud authorization attempt (no PKCE, no state). -/
structure MixcloudAuthEnv where
  bindOk : Bool
  callback : Option (List (String × String))
  exchange : ExchangeOutcome
  now : Int

/-- Embedding of `MixcloudClient::authorize` (src/platforms/mixcloud.rs,
lines 63-209): bind the listener, read the callback, extract `code`
(`extract_code_from_request`, lines 211-228; no state is generated or
checked), exchange the code, and save a record with `created_at = now` into
the `mixcloud` entry of the loaded storage (lines 185-190). -/
def mixcloudAuthorize (env : MixcloudAuthEnv) (stored : TokenStorage) :
    Except AuthError Unit × TokenStorage × Bool :=
  if !env.bindOk then (.error .listenerUnavailable, stored, false)
  else match env.callback with
  | none => (.error .requestReadFailed, stored, false)
  | some pairs =>
    match findParam pairs "code" with
    | none => (.error .missingAuthorizationCode, stored, false)
    | some _code =>
      match env.exchange with
      | .httpError status body => (.error (.tokenExchangeFailed status body), stored, true)
      | .parseError => (.error .tokenParseFailed, stored, true)
      | .success resp =>
          let token_info := TokenInfo.new resp.access_token resp.refresh_token
            resp.expires_in env.now
          (.ok (), stored.set_mixcloud_tokens token_info, true)

/-! The token file (src/config.rs, lines 140-184). The JSON document is
modelled as a tree; `serde_json::to_string_pretty` followed by
`serde_json::from_str` is the identity on the document, so `save`/`load`
exchange the document itself. `created_at` round-trips exactly through
chrono's RFC 3339 serialization, so it is carried as the timestamp value. -/

/-- JSON documents as far as the token file needs them. -/
inductive Json where
  | str : String → Json
  | num : Int → Json
  | obj : List (String × Json) → Json

/-- First field with the given key of a JSON object's field list. -/
def jsonLookup (fields : List (String × Json)) (key : String) : Option Json :=
  (fields.find? (fun p => p.1 == key)).map (fun p => p.2)

/-- Serialization of `TokenInfo` under its serde derive: `access_token`,
then `refresh_token` unless `None` (`skip_serializing_if`), then
`created_at`, then `expires_in` unless `None`. -/
def encodeTokenInfo (t : TokenInfo) : Json :=
  .obj ([("access_token", .str t.access_token)] ++
    (match t.refresh_token with
     | some r => [("refresh_token", Json.str r)]
     | none => []) ++
    [("created_at", .num t.created_at)] ++
    (match t.expires_in with
     | some e => [("expires_in", Json.num e)]
     | none => []))

/-- Deserialization of an optional string field: missing means `None`. -/
def decodeOptStr (fields : List (String × Json)) (key : String) :
    Option (Option String) :=
  match jsonLookup fields key with
  | none => some none
  | some (.str s) => some (some s)
  | some _ => none

/-- Deserialization of an optional integer field: missing means `None`. -/
def decodeOptNum (fields : List (String × Json)) (key : String) :
    Option (Option Int) :=
  match jsonLookup fields key with
  | none => some none
  | some (.num n) => some (some n)
  | some _ => none

/-- Deserialization of `TokenInfo`: `access_token` and `created_at`
required, the optional fields defaulting to `None` when absent. -/
def decodeTokenInfo : Json → Option TokenInfo
  | .obj fields => do
      let a ← match jsonLookup fields "access_token" with
        | some (.str s) => some s
        | _ => none
      let rt ← decodeOptStr fields "refresh_token"
      let ca ← match jsonLookup fields "created_at" with
        | some (.num n) => some n
        | _ => none
      let ei ← decodeOptNum fields "expires_in"
      some ⟨a, rt, ca, ei⟩
  | _ => none

/-- Serialization of `TokenStorage`: each provider entry present only when
`Some` (`skip_serializing_if`). -/
def encodeTokenStorage (s : TokenStorage) : Json :=
  .obj ((match s.mixcloud with
         | some t => [("mixcloud", encodeTokenInfo t)]
         | none => []) ++
        (match s.soundcloud with
         | some t => [("soundcloud", encodeTokenInfo t)]
         | none => []))

/-- Deserialization of an optional provider entry. -/
def decodeOptTokenInfo (fields : List (String × Json)) (key : String) :
    Option (Option TokenInfo) :=
  match jsonLookup fields key with
  | none => some none
  | some j => (decodeTokenInfo j).map some

/-- Deserialization of `TokenStorage`. -/
def decodeTokenStorage : Json → Option TokenStorage
  | .obj fields => do
      let m ← decodeOptTokenInfo fields "mixcloud"
      let sc ← decodeOptTokenInfo fields "soundcloud"
      some ⟨m, sc⟩
  | _ => none

/-- Embedding of `TokenStorage::save` (src/config.rs, lines 158-171): the
whole storage is serialized and the file overwritten with it. -/
def TokenStorage.save (s : TokenStorage) (_file : Option Json) : Option Json :=
  some (encodeTokenStorage s)

/-- Embedding of `TokenStorage::load` (src/config.rs, lines 140-156): an
absent file yields the empty storage, a present file is parsed, and a parse
failure is an error. -/
def TokenStorage.load (file : Option Json) : Except String TokenStorage :=
  match file with
  | none => .ok ⟨none, none⟩
  | some j =>
      match decodeTokenStorage j with
      | some s => .ok s
      | none => .error "Failed to parse token file"

end DjUploader

/-- C3: `is_expired` is true exactly when `now ≥ created_at + expires_in - 300`
(5-minute buffer), and false whenever `expires_in` is absent; in particular,
with `expires_in = 3600` and `created_at = T`, it is false at `T + 3000` and
true at `T + 3300`. -/
theorem C3_is_expired_spec (t : DjUploader.TokenInfo) (now e T : Int) :
    (t.expires_in = some e →
      (t.is_expired now = true ↔ now ≥ t.created_at + e - 300)) ∧
    (t.expires_in = none → t.is_expired now = false) ∧
    (DjUploader.TokenInfo.new "a" none (some 3600) T).is_expired (T + 3000) = false ∧
    (DjUploader.TokenInfo.new "a" none (some 3600) T).is_expired (T + 3300) = true := by
  refine ⟨fun h => ?_, fun h => ?_, ?_, ?_⟩
  · simp [DjUploader.TokenInfo.is_expired, h]
  · simp [DjUploader.TokenInfo.is_expired, h]
  · simp [DjUploader.TokenInfo.is_expired, DjUploader.TokenInfo.new]
    omega
  · simp [DjUploader.TokenInfo.is_expired, DjUploader.TokenInfo.new]
    omega

/-- Witness for C3 at a concrete record: `expires_in = some 3600`,
`created_at = 0`, evaluated at `now = 3300`. -/
theorem C3_is_expired_spec_witness :
    (DjUploader.TokenInfo.new "a" none (some 3600) 0).is_expired 3300 = true ∧
    ((3300 : Int) ≥ 0 + 3600 - 300) := by
  have h := C3_is_expired_spec (DjUploader.TokenInfo.new "a" none (some 3600) 0) 3300 3600 0
  exact ⟨(h.1 rfl).mpr (by decide), by decide⟩

/-- C9: `is_expired` is monotonic in the evaluation time: for a fixed record,
once true at `now`, it is true at every later `now'`. -/
theorem C9_is_expired_monotonic (t : DjUploader.TokenInfo) (now now' : Int)
    (hle : now ≤ now') (h : t.is_expired now = true) :
    t.is_expired now' = true := by
  unfold DjUploader.TokenInfo.is_expired at h ⊢
  cases he : t.expires_in with
  | none => rw [he] at h; simp at h
  | some e =>
      rw [he] at h
      simp only [decide_eq_true_eq] at h ⊢
      omega

/-- Witness for C9: a record expired at time 3300 is still expired at 5000. -/
theorem C9_is_expired_monotonic_witness :
    (DjUploader.TokenInfo.new "a" none (some 3600) 0).is_expired 5000 = true :=
  C9_is_expired_monotonic (DjUploader.TokenInfo.new "a" none (some 3600) 0)
    3300 5000 (by decide) (by decide)

/-- C10: `time_until_expiry` is `none` exactly when `expires_in` is absent;
otherwise it is `some d` with `d ≥ 0`, and once the expiry instant has
passed it is `some 0` rather than a negative remainder. -/
theorem C10_time_until_expiry_nonneg (t : DjUploader.TokenInfo) (now : Int) :
    (t.time_until_expiry now = none ↔ t.expires_in = none) ∧
    (∀ d, t.time_until_expiry now = some d → 0 ≤ d) ∧
    (∀ e, t.expires_in = some e → now ≥ t.created_at + e →
      t.time_until_expiry now = some 0) := by
  unfold DjUploader.TokenInfo.time_until_expiry
  cases he : t.expires_in with
  | none =>
      refine ⟨by simp, by simp, fun e h => by simp at h⟩
  | some e =>
      refine ⟨?_, ?_, ?_⟩
      · constructor
        · intro h
          by_cases hr : t.created_at + e - now > 0 <;> simp [hr] at h
        · intro h; simp at h
      · intro d h
        by_cases hr : t.created_at + e - now > 0 <;> simp [hr] at h <;> omega
      · intro e' he' hpast
        injection he' with he'
        subst he'
        have hr : ¬ (t.created_at + e - now > 0) := by omega
        simp [hr]

/-- Witness for C10 at a concrete record already past expiry:
`created_at = 0`, `expires_in = 100`, evaluated at `now = 200`. -/
theorem C10_time_until_expiry_nonneg_witness :
    (DjUploader.TokenInfo.new "a" none (some 100) 0).time_until_expiry 200 = some 0 :=
  (C10_time_until_expiry_nonneg (DjUploader.TokenInfo.new "a" none (some 100) 0)
    200).2.2 100 rfl (by decide)

/-- C4: on a successful refresh (for either provider) the stored record is
replaced by a fresh record whose `created_at` is the refresh time `now` and
whose refresh token is the response's when present (`Option.or` keeps the
response's `some r`) and the previous one when the response omits it. -/
theorem C4_refresh_replaces_record (storage : DjUploader.TokenStorage) (now : Int)
    (tok : DjUploader.TokenInfo) (rt : String) (resp : DjUploader.TokenResponse) :
    (storage.mixcloud = some tok → tok.is_expired now = true →
      tok.refresh_token = some rt →
      DjUploader.mixcloudRefreshTokenIfNeeded storage now (.success resp) =
        (.ok (),
         { storage with mixcloud := some (DjUploader.TokenInfo.mk
             resp.access_token (resp.refresh_token.or (some rt)) now resp.expires_in) },
         true)) ∧
    (storage.soundcloud = some tok → tok.is_expired now = true →
      tok.refresh_token = some rt →
      DjUploader.soundcloudRefreshTokenIfNeeded storage now (.success resp) =
        (.ok (),
         { storage with soundcloud := some (DjUploader.TokenInfo.mk
             resp.access_token (resp.refresh_token.or (some rt)) now resp.expires_in) },
         true)) ∧
    (∀ r : String, (some r).or (some rt) = some r) ∧
    ((Option.none).or (some rt) = some rt) := by
  refine ⟨fun hm hexp hrt => ?_, fun hs hexp hrt => ?_, fun r => rfl, rfl⟩
  · simp [DjUploader.mixcloudRefreshTokenIfNeeded, hm, hexp, hrt,
      DjUploader.TokenInfo.new, DjUploader.TokenStorage.set_mixcloud_tokens]
  · simp [DjUploader.soundcloudRefreshTokenIfNeeded, hs, hexp, hrt,
      DjUploader.TokenInfo.new]

/-- Witness for C4: a concrete expired Mixcloud record refreshed at `now = 4000`
by a response that omits the refresh token keeps the old refresh token and
gets `created_at = 4000`. -/
theorem C4_refresh_replaces_record_witness :
    DjUploader.mixcloudRefreshTokenIfNeeded
      ⟨some (DjUploader.TokenInfo.new "old" (some "rt0") (some 3600) 0), none⟩ 4000
      (.success ⟨"new", none, some 3600⟩) =
      (.ok (),
       ⟨some (DjUploader.TokenInfo.mk "new" (some "rt0") 4000 (some 3600)), none⟩,
       true) := by
  have h := (C4_refresh_replaces_record
    ⟨some (DjUploader.TokenInfo.new "old" (some "rt0") (some 3600) 0), none⟩ 4000
    (DjUploader.TokenInfo.new "old" (some "rt0") (some 3600) 0) "rt0"
    ⟨"new", none, some 3600⟩).1 rfl (by decide) rfl
  simpa using h

/-- C5: an expired record with no refresh token makes
`refresh_token_if_needed` (either provider) fail with the no-refresh-token
error, with the storage unchanged and no refresh POST sent (the `Bool`
component is `false` and the result does not depend on `net`). -/
theorem C5_no_refresh_token (storage : DjUploader.TokenStorage) (now : Int)
    (tok : DjUploader.TokenInfo) (net : DjUploader.ExchangeOutcome) :
    (storage.mixcloud = some tok → tok.is_expired now = true →
      tok.refresh_token = none →
      DjUploader.mixcloudRefreshTokenIfNeeded storage now net =
        (.error .noRefreshToken, storage, false)) ∧
    (storage.soundcloud = some tok → tok.is_expired now = true →
      tok.refresh_token = none →
      DjUploader.soundcloudRefreshTokenIfNeeded storage now net =
        (.error .noRefreshToken, storage, false)) := by
  refine ⟨fun hm hexp hrt => ?_, fun hs hexp hrt => ?_⟩
  · simp [DjUploader.mixcloudRefreshTokenIfNeeded, hm, hexp, hrt]
  · simp [DjUploader.soundcloudRefreshTokenIfNeeded, hs, hexp, hrt]

/-- Witness for C5: a concrete expired SoundCloud record without a refresh
token, against an arbitrary concrete network outcome. -/
theorem C5_no_refresh_token_witness :
    DjUploader.soundcloudRefreshTokenIfNeeded
      ⟨none, some (DjUploader.TokenInfo.new "old" none (some 3600) 0)⟩ 4000
      (.success ⟨"new", none, none⟩) =
      (.error .noRefreshToken,
        ⟨none, some (DjUploader.TokenInfo.new "old" none (some 3600) 0)⟩, false) :=
  (C5_no_refresh_token
    ⟨none, some (DjUploader.TokenInfo.new "old" none (some 3600) 0)⟩ 4000
    (DjUploader.TokenInfo.new "old" none (some 3600) 0)
    (.success ⟨"new", none, none⟩)).2 rfl (by decide) rfl

/-- C1: in the PKCE-based SoundCloud authorize, a callback whose state differs
from the generated state fails with the CSRF-mismatch error, sends no
token-exchange request (`Bool` component `false`), and leaves the stored
storage unchanged. -/
theorem C1_csrf_mismatch_aborts (env : DjUploader.SoundcloudAuthEnv)
    (stored : DjUploader.TokenStorage) (pairs : List (String × String))
    (c s' : String)
    (hbind : env.bindOk = true)
    (hcb : env.callback = some pairs)
    (hcode : DjUploader.findParam pairs "code" = some c)
    (hstate : DjUploader.findParam pairs "state" = some s')
    (hne : s' ≠ DjUploader.genState env.stateRand) :
    DjUploader.soundcloudAuthorize env stored = (.error .csrfMismatch, stored, false) := by
  simp [DjUploader.soundcloudAuthorize, hbind, hcb, hcode, hstate, hne]

/-- Witness for C1: a concrete attempt whose callback returns state
`"xyz789"` while the generated state is 32 `'A'`s. -/
theorem C1_csrf_mismatch_aborts_witness :
    DjUploader.soundcloudAuthorize
      ⟨fun _ => 0, true, some [("code", "c"), ("state", "xyz789")],
        .success ⟨"tok", none, none⟩, 0⟩
      ⟨none, none⟩ =
      (.error .csrfMismatch, ⟨none, none⟩, false) :=
  C1_csrf_mismatch_aborts
    ⟨fun _ => 0, true, some [("code", "c"), ("state", "xyz789")],
      .success ⟨"tok", none, none⟩, 0⟩
    ⟨none, none⟩ [("code", "c"), ("state", "xyz789")] "c" "xyz789"
    rfl rfl rfl rfl (by decide)

/-- C2 counterexample: the Mixcloud authorize URL carries no `state` query
parameter at all (its parameter list is only `client_id` and `redirect_uri`),
so the claim "every provider's authorize includes a generated state" fails at
the Mixcloud provider. -/
theorem C2_counterexample :
    (DjUploader.mixcloudAuthUrlParams "client-id").all
      (fun p => p.1 != "state") = true ∧
    DjUploader.findParam (DjUploader.mixcloudAuthUrlParams "client-id") "state" =
      none := by
  decide

/-- C2 amended: only the PKCE provider (SoundCloud) generates a fresh
32-character alphanumeric state and includes it as the `state` query
parameter of its authorize URL; the Mixcloud authorize URL has no `state`
parameter. -/
theorem C2_amended_state_param (r : Nat → Nat) (client_id verifier : String) :
    (DjUploader.genState r).length = 32 ∧
    (∀ ch ∈ (DjUploader.genState r).data, ch.isAlphanum = true) ∧
    ("state", DjUploader.genState r) ∈
      DjUploader.soundcloudAuthUrlParams client_id
        (DjUploader.generate_code_challenge verifier) (DjUploader.genState r) ∧
    (DjUploader.mixcloudAuthUrlParams client_id).all
      (fun p => p.1 != "state") = true := by
  refine ⟨?_, ?_, ?_, ?_⟩
  · simp [DjUploader.genState, String.length]
  · intro ch hch
    simp only [DjUploader.genState, List.mem_map] at hch
    obtain ⟨i, _, hi⟩ := hch
    subst hi
    have h62 : r i % 62 < 62 := Nat.mod_lt _ (by norm_num)
    have hall : ∀ m : Fin 62,
        (DjUploader.alphanumericChars.getD m.val 'A').isAlphanum = true := by decide
    exact hall ⟨r i % 62, h62⟩
  · simp [DjUploader.soundcloudAuthUrlParams]
  · simp [DjUploader.mixcloudAuthUrlParams]

/-- Witness for C2's amended claim at a concrete random source, client id and
verifier. -/
theorem C2_amended_state_param_witness :
    (DjUploader.genState (fun _ => 0)).length = 32 ∧
    ("state", DjUploader.genState (fun _ => 0)) ∈
      DjUploader.soundcloudAuthUrlParams "cid"
        (DjUploader.generate_code_challenge "v") (DjUploader.genState (fun _ => 0)) :=
  ⟨(C2_amended_state_param (fun _ => 0) "cid" "v").1,
   (C2_amended_state_param (fun _ => 0) "cid" "v").2.2.1⟩

/-- C6: authorize replaces only its own provider's entry: for every prior
storage and every attempt outcome (in particular every successful one), the
other provider's entry of the resulting storage equals its entry before the
attempt. -/
theorem C6_authorize_preserves_other_provider
    (senv : DjUploader.SoundcloudAuthEnv) (menv : DjUploader.MixcloudAuthEnv)
    (stored : DjUploader.TokenStorage) :
    ((DjUploader.soundcloudAuthorize senv stored).2.1).mixcloud = stored.mixcloud ∧
    ((DjUploader.mixcloudAuthorize menv stored).2.1).soundcloud = stored.soundcloud := by
  constructor
  · unfold DjUploader.soundcloudAuthorize
    repeat' split
    all_goals simp [DjUploader.TokenStorage.set_mixcloud_tokens]
  · unfold DjUploader.mixcloudAuthorize
    repeat' split
    all_goals simp [DjUploader.TokenStorage.set_mixcloud_tokens]

/-- C8: the PKCE challenge is the URL-safe unpadded base64 encoding of the
SHA-256 digest of the verifier's UTF-8 bytes, and the computation is
deterministic. -/
theorem C8_pkce_challenge (v w : String) :
    DjUploader.generate_code_challenge v =
      String.mk (DjUploader.base64UrlNoPad (DjUploader.sha256 (DjUploader.strBytes v))) ∧
    (v = w →
      DjUploader.generate_code_challenge v = DjUploader.generate_code_challenge w) :=
  ⟨rfl, fun h => h ▸ rfl⟩

set_option maxRecDepth 20000 in
/-- Witness for C8 at the RFC 7636 appendix-B test vector. -/
theorem C8_pkce_challenge_witness :
    DjUploader.generate_code_challenge "dBjftJeZ4CVP-mB92K27uhbUJU1p1r_wW1gFWFOEjXk" =
      "E9Melhoa2OwvFrEMTJguCHaoeK1t8URWbuGJSstw-cM" ∧
    DjUploader.generate_code_challenge "dBjftJeZ4CVP-mB92K27uhbUJU1p1r_wW1gFWFOEjXk" =
      DjUploader.generate_code_challenge "dBjftJeZ4CVP-mB92K27uhbUJU1p1r_wW1gFWFOEjXk" :=
  ⟨by decide, (C8_pkce_challenge _ _).2 rfl⟩

/-- Deserializing a serialized `TokenInfo` restores it. -/
theorem decodeTokenInfo_encodeTokenInfo (t : DjUploader.TokenInfo) :
    DjUploader.decodeTokenInfo (DjUploader.encodeTokenInfo t) = some t := by
  obtain ⟨a, rt, ca, ei⟩ := t
  cases rt <;> cases ei <;> rfl

/-- Deserializing a serialized `TokenStorage` restores it. -/
theorem decodeTokenStorage_encodeTokenStorage (s : DjUploader.TokenStorage) :
    DjUploader.decodeTokenStorage (DjUploader.encodeTokenStorage s) = some s := by
  obtain ⟨m, sc⟩ := s
  cases m <;> cases sc <;>
    simp [DjUploader.decodeTokenStorage, DjUploader.encodeTokenStorage,
      DjUploader.decodeOptTokenInfo, DjUploader.jsonLookup, List.find?,
      decodeTokenInfo_encodeTokenInfo]

/-- C7: `save` followed by `load` restores any storage (zero, one or two
provider entries), and `load` of an absent file succeeds with the empty
storage. -/
theorem C7_save_load_roundtrip (s : DjUploader.TokenStorage)
    (file : Option DjUploader.Json) :
    DjUploader.TokenStorage.load (DjUploader.TokenStorage.save s file) =
      Except.ok s ∧
    DjUploader.TokenStorage.load none = Except.ok ⟨none, none⟩ := by
  refine ⟨?_, rfl⟩
  simp [DjUploader.TokenStorage.load, DjUploader.TokenStorage.save,
    decodeTokenStorage_encodeTokenStorage]
